import Mathlib

/-!
# goexpert-multithreading: the postal-code race of `cmd/server/main.go`

A shallow embedding of `SearchCepHandler`, `SearchCepBrasilApi` and
`SearchCepViaCep`.  The network, the clock and the Go runtime's choice among
ready `select` cases are explicit inputs; library calls (`fmt.Sprintf`,
`json.Unmarshal`, `http.ResponseWriter`) are modelled on the fragment the
program uses.
-/

namespace Cep

/-! ## Errors and JSON values -/

/-- Go `error` values the program can see. `message` is `errors.New`; the others
come from the libraries. -/
inductive Error where
  | message (text : String)
  | request (text : String)
  | transport (text : String)
  | read (text : String)
  | invalidJson
  | unmarshalType (field : String)
  deriving DecidableEq, Repr

/-- A JSON document, as `encoding/json` sees it after scanning. Numbers keep their
literal text. -/
inductive Json where
  | null
  | bool (b : Bool)
  | num (literal : String)
  | str (s : String)
  | arr (items : List Json)
  | obj (members : List (String × Json))

/-- Bytes returned by `io.ReadAll`, classified by the JSON scanner: either not a
valid JSON text, or the JSON value they denote. -/
inductive Payload where
  | invalid
  | value (j : Json)

/-! ## The two record types (lines 16-36) -/

structure BrasilApi where
  Cep : String := ""
  State : String := ""
  City : String := ""
  Neighborhood : String := ""
  Street : String := ""
  Service : String := ""
  deriving DecidableEq, Repr

structure ViaCep where
  Cep : String := ""
  Logradouro : String := ""
  Complemento : String := ""
  Bairro : String := ""
  Localidade : String := ""
  Uf : String := ""
  Ibge : String := ""
  Gia : String := ""
  Ddd : String := ""
  Siafi : String := ""
  deriving DecidableEq, Repr

/-! ## `json.Unmarshal` into a struct of string fields -/

/-- Case folding of one rune as `encoding/json` does when it matches an object key
against a field name: ASCII letters fold to upper case, and the two non-ASCII
runes whose simple fold is an ASCII letter (long s, Kelvin sign) fold to it. Every
other rune is kept: it equals no letter of the (ASCII) field names of this program. -/
def foldRune (c : Char) : Char :=
  if 'a' ≤ c ∧ c ≤ 'z' then Char.ofNat (c.toNat - 32)
  else if c.toNat = 0x17F then 'S'
  else if c.toNat = 0x212A then 'K'
  else c

/-- Folded form of a key. -/
def foldName (s : String) : String := ⟨s.data.map foldRune⟩

/-- An object key selects the field tagged `tag` when it is equal to it up to case
folding. -/
def keyMatches (tag key : String) : Bool := foldName key == foldName tag

/-- Decoding of one member value into a Go `string` field named `field`:
a JSON string is stored, `null` leaves the field as it is, anything else is an
`UnmarshalTypeError` (the field is left as it is and decoding goes on). -/
def decodeString (field : String) (old : String) : Json → String × Option Error
  | .str s => (s, none)
  | .null => (old, none)
  | _ => (old, some (.unmarshalType field))

/-- First error wins: `json.Unmarshal` reports the first type error it met. -/
def firstError : Option Error → Option Error → Option Error
  | some e, _ => some e
  | none, e => e

/-- One object member applied to a `BrasilApi` value. Members whose key matches no
field are skipped. -/
def setBrasilApi (v : BrasilApi) (key : String) (j : Json) : BrasilApi × Option Error :=
  if keyMatches "cep" key then
    let r := decodeString "cep" v.Cep j; ({ v with Cep := r.1 }, r.2)
  else if keyMatches "state" key then
    let r := decodeString "state" v.State j; ({ v with State := r.1 }, r.2)
  else if keyMatches "city" key then
    let r := decodeString "city" v.City j; ({ v with City := r.1 }, r.2)
  else if keyMatches "neighborhood" key then
    let r := decodeString "neighborhood" v.Neighborhood j; ({ v with Neighborhood := r.1 }, r.2)
  else if keyMatches "street" key then
    let r := decodeString "street" v.Street j; ({ v with Street := r.1 }, r.2)
  else if keyMatches "service" key then
    let r := decodeString "service" v.Service j; ({ v with Service := r.1 }, r.2)
  else (v, none)

/-- One object member applied to a `ViaCep` value. -/
def setViaCep (v : ViaCep) (key : String) (j : Json) : ViaCep × Option Error :=
  if keyMatches "cep" key then
    let r := decodeString "cep" v.Cep j; ({ v with Cep := r.1 }, r.2)
  else if keyMatches "logradouro" key then
    let r := decodeString "logradouro" v.Logradouro j; ({ v with Logradouro := r.1 }, r.2)
  else if keyMatches "complemento" key then
    let r := decodeString "complemento" v.Complemento j; ({ v with Complemento := r.1 }, r.2)
  else if keyMatches "bairro" key then
    let r := decodeString "bairro" v.Bairro j; ({ v with Bairro := r.1 }, r.2)
  else if keyMatches "localidade" key then
    let r := decodeString "localidade" v.Localidade j; ({ v with Localidade := r.1 }, r.2)
  else if keyMatches "uf" key then
    let r := decodeString "uf" v.Uf j; ({ v with Uf := r.1 }, r.2)
  else if keyMatches "ibge" key then
    let r := decodeString "ibge" v.Ibge j; ({ v with Ibge := r.1 }, r.2)
  else if keyMatches "gia" key then
    let r := decodeString "gia" v.Gia j; ({ v with Gia := r.1 }, r.2)
  else if keyMatches "ddd" key then
    let r := decodeString "ddd" v.Ddd j; ({ v with Ddd := r.1 }, r.2)
  else if keyMatches "siafi" key then
    let r := decodeString "siafi" v.Siafi j; ({ v with Siafi := r.1 }, r.2)
  else (v, none)

/-- Members of an object applied in order (a later duplicate key overwrites). -/
def decodeMembers {α : Type} (set : α → String → Json → α × Option Error) :
    α → List (String × Json) → α × Option Error
  | v, [] => (v, none)
  | v, (k, j) :: rest =>
    let r := set v k j
    let r2 := decodeMembers set r.1 rest
    (r2.1, firstError r.2 r2.2)

/-- The call `json.Unmarshal(body, &v)` on a zero struct: invalid text is a syntax
error, `null` is a no-op, an object is decoded member by member, and any other
value is an `UnmarshalTypeError`. The struct is returned only when `err == nil`. -/
def Unmarshal {α : Type} (typeName : String) (zero : α)
    (set : α → String → Json → α × Option Error) : Payload → Except Error α
  | .invalid => .error .invalidJson
  | .value .null => .ok zero
  | .value (.obj members) =>
    match decodeMembers set zero members with
    | (v, none) => .ok v
    | (_, some e) => .error e
  | .value _ => .error (.unmarshalType typeName)

/-! ## The HTTP client -/

/-- What `http.DefaultClient.Do` hands back: the status code and what
`io.ReadAll(resp.Body)` will give. -/
structure Response where
  StatusCode : Nat
  Body : Except Error Payload

/-- The world outside the process, as the two lookups see it: whether
`http.NewRequestWithContext` accepts a URL, and the outcome of the GET. -/
structure Net where
  newRequest : String → Option Error
  doRequest : String → Except Error Response

def StatusOK : Nat := 200
def StatusBadRequest : Nat := 400
def StatusNotFound : Nat := 404
def StatusInternalServerError : Nat := 500

/-- Lines 104-145. -/
def SearchCepBrasilApi (net : Net) (cep : String) : Except Error BrasilApi :=
  let url := "https://brasilapi.com.br/api/cep/v1/" ++ cep
  match net.newRequest url with
  | some err => .error err
  | none =>
    match net.doRequest url with
    | .error err => .error err
    | .ok resp =>
      if resp.StatusCode = StatusNotFound ∨ resp.StatusCode = StatusBadRequest then
        .error (.message "CEP não encontrado.")
      else
        match resp.Body with
        | .error err => .error err
        | .ok body =>
          match Unmarshal "BrasilApi" ({} : BrasilApi) setBrasilApi body with
          | .error err => .error err
          | .ok brasilApi => .ok brasilApi

/-- Lines 147-184. -/
def SearchCepViaCep (net : Net) (cep : String) : Except Error ViaCep :=
  let url := "https://viacep.com.br/ws/" ++ cep ++ "/json/"
  match net.newRequest url with
  | some err => .error err
  | none =>
    match net.doRequest url with
    | .error err => .error err
    | .ok resp =>
      match resp.Body with
      | .error err => .error err
      | .ok body =>
        match Unmarshal "ViaCep" ({} : ViaCep) setViaCep body with
        | .error err => .error err
        | .ok viaCep => .ok viaCep

/-! ## `fmt.Sprintf` with string operands -/

/-- The verbs the program uses: `%s` takes the next operand, `%%` is a percent
sign, every other character is copied; a `%s` without operand prints Go's
missing-operand marker. -/
def sprintfAux : List Char → List String → List Char
  | '%' :: 's' :: rest, a :: args => a.data ++ sprintfAux rest args
  | '%' :: 's' :: rest, [] => "%!s(MISSING)".data ++ sprintfAux rest []
  | '%' :: '%' :: rest, args => '%' :: sprintfAux rest args
  | c :: rest, args => c :: sprintfAux rest args
  | [], _ => []

def Sprintf (format : String) (args : List String) : String :=
  ⟨sprintfAux format.data args⟩

/-! ## `http.ResponseWriter` -/

/-- State of the response. The first `WriteHeader` fixes the status; a `Write`
before any `WriteHeader` fixes it to 200 first. `failing` says that writes to the
connection return an error and store nothing. -/
structure ResponseWriter where
  wroteHeader : Bool := false
  status : Nat := 200
  body : String := ""
  failing : Bool := false
  deriving DecidableEq, Repr

namespace ResponseWriter

def WriteHeader (w : ResponseWriter) (code : Nat) : ResponseWriter :=
  if w.wroteHeader then w else { w with wroteHeader := true, status := code }

/-- Returns the new state and whether `err != nil`. -/
def Write (w : ResponseWriter) (data : String) : ResponseWriter × Bool :=
  let w1 := w.WriteHeader StatusOK
  if w1.failing then (w1, true) else ({ w1 with body := w1.body ++ data }, false)

end ResponseWriter

/-! ## The race (lines 55-93) -/

/-- `time.Duration` units, in nanoseconds. -/
def Millisecond : Nat := 1000000
def Second : Nat := 1000 * Millisecond

/-- The three cases of the `select`, in source order. -/
inductive SelectCase where
  | viaCep
  | brasilApi
  | timeAfter
  deriving DecidableEq, Repr

/-- Timing of one request, measured from the moment the `select` is entered:
when each goroutine reaches its channel send (`none`: it never does), and the
runtime's pseudo-random pick among the cases that are ready together. -/
structure Schedule where
  viaCepAt : Option Nat
  brasilApiAt : Option Nat
  pick : Nat

/-- Instant at which a case becomes ready; the timer is `time.After(time.Second * 1)`. -/
def Schedule.readyAt (s : Schedule) : SelectCase → Option Nat
  | .viaCep => s.viaCepAt
  | .brasilApi => s.brasilApiAt
  | .timeAfter => some (Second * 1)

/-- The earlier of an instant and an optional instant. -/
def earlier (t : Nat) : Option Nat → Nat
  | none => t
  | some u => min t u

/-- Instant at which the `select` returns: the first instant some case is ready. -/
def Schedule.selectAt (s : Schedule) : Nat :=
  earlier (earlier (Second * 1) s.viaCepAt) s.brasilApiAt

/-- Cases ready at the instant the `select` returns, in source order. -/
def Schedule.ready (s : Schedule) : List SelectCase :=
  [SelectCase.viaCep, SelectCase.brasilApi, SelectCase.timeAfter].filter
    (fun c => s.readyAt c == some s.selectAt)

/-- The case the `select` takes: the only ready one, or the runtime's pick among
several. -/
def Schedule.selected (s : Schedule) : SelectCase :=
  (s.ready.get? (s.pick % s.ready.length)).getD SelectCase.timeAfter

/-- The world of one request. -/
structure Env where
  net : Net
  sched : Schedule

/-- Line 58. -/
def addressTemplate : String := "Logradouro: %s, Bairro: %s, Cidade: %s, Estado: %s, CEP: %s"

/-- The goroutine of lines 61-71: the string it sends on `cBrasilApi`. -/
def brasilApiMessage (net : Net) (cepInput : String) : String :=
  match SearchCepBrasilApi net cepInput with
  | .error _ => "Erro ao buscar CEP pela Brasil Api"
  | .ok cepOutput =>
    Sprintf addressTemplate
      [cepOutput.Street, cepOutput.Neighborhood, cepOutput.City, cepOutput.State, cepOutput.Cep]

/-- The goroutine of lines 74-84: the string it sends on `cViaCep`. -/
def viaCepMessage (net : Net) (cepInput : String) : String :=
  match SearchCepViaCep net cepInput with
  | .error _ => "Erro ao buscar CEP pela ViaCep."
  | .ok cepOutput =>
    Sprintf addressTemplate
      [cepOutput.Logradouro, cepOutput.Bairro, cepOutput.Localidade, cepOutput.Uf, cepOutput.Cep]

/-- The `select` of lines 86-93: the value of `response` after it. -/
def raceResponse (env : Env) (cepInput : String) : String :=
  match env.sched.selected with
  | .viaCep => Sprintf "Recebido de ViaCep: %s\n" [viaCepMessage env.net cepInput]
  | .brasilApi => Sprintf "Recebido de Brasil Api: %s\n" [brasilApiMessage env.net cepInput]
  | .timeAfter => "Timeout na busca de CEP"

/-- The lookups a request starts. -/
inductive Lookup where
  | SearchCepBrasilApi
  | SearchCepViaCep
  deriving DecidableEq, Repr

/-- What one run of the handler leaves behind: the response, the lookups its
goroutines started (in start order), and the instant the `select` returned
(`none` when the handler never reached it). -/
structure Run where
  w : ResponseWriter
  lookups : List Lookup
  selectedAt : Option Nat
  deriving DecidableEq, Repr

/-- Lines 48-102. -/
def SearchCepHandler (env : Env) (w : ResponseWriter) (cepInput : String) : Run :=
  if cepInput = "" then
    { w := w.WriteHeader StatusBadRequest, lookups := [], selectedAt := none }
  else
    let response := raceResponse env cepInput
    let r := w.Write response
    let w2 :=
      if r.2 then
        ((r.1.WriteHeader StatusInternalServerError).Write "Erro geral na busca por CEP.").1
      else r.1.WriteHeader StatusOK
    { w := w2,
      lookups := [Lookup.SearchCepBrasilApi, Lookup.SearchCepViaCep],
      selectedAt := some env.sched.selectAt }

/-- Status code the client receives. -/
def Run.statusCode (r : Run) : Nat := if r.w.wroteHeader then r.w.status else StatusOK

/-- Body the client receives. -/
def Run.body (r : Run) : String := r.w.body

/-! ## Reading a response -/

/-- The writer the server hands to the handler: nothing written yet. -/
def freshWriter (failing : Bool) : ResponseWriter := { failing := failing }

/-- The response line for a ViaCep record, written out. -/
def viaCepLine (v : ViaCep) : String :=
  "Recebido de ViaCep: Logradouro: " ++ v.Logradouro ++ ", Bairro: " ++ v.Bairro ++
    ", Cidade: " ++ v.Localidade ++ ", Estado: " ++ v.Uf ++ ", CEP: " ++ v.Cep ++ "\n"

/-- The response line for a Brasil Api record, written out. -/
def brasilApiLine (b : BrasilApi) : String :=
  "Recebido de Brasil Api: Logradouro: " ++ b.Street ++ ", Bairro: " ++ b.Neighborhood ++
    ", Cidade: " ++ b.City ++ ", Estado: " ++ b.State ++ ", CEP: " ++ b.Cep ++ "\n"

/-- The labelled address line of the lookup behind a select case, when that lookup
succeeded; `none` when it failed, and for the timer. -/
def addressResponse (net : Net) (cep : String) : SelectCase → Option String
  | .viaCep =>
    match SearchCepViaCep net cep with
    | .ok out => some (viaCepLine out)
    | .error _ => none
  | .brasilApi =>
    match SearchCepBrasilApi net cep with
    | .ok out => some (brasilApiLine out)
    | .error _ => none
  | .timeAfter => none

/-- The address line as the specification words it (English labels). -/
def specAddressLine (street neighborhood city state code : String) : String :=
  "Street: " ++ street ++ ", Neighborhood: " ++ neighborhood ++ ", City: " ++ city ++
    ", State: " ++ state ++ ", PostalCode: " ++ code

/-- Number of providers whose failure message a response body carries. -/
def reportedFailures (body : String) : Nat :=
  (if "Erro ao buscar CEP pela ViaCep.".data <:+: body.data then 1 else 0) +
    (if "Erro ao buscar CEP pela Brasil Api".data <:+: body.data then 1 else 0)

/-! ## Concrete worlds used as examples -/

/-- A network in which the ViaCep URL of `cep` gets `via` and every other URL gets `br`. -/
def netOf (cep : String) (via br : Except Error Response) : Net :=
  { newRequest := fun _ => none,
    doRequest := fun url => if url = "https://viacep.com.br/ws/" ++ cep ++ "/json/" then via else br }

/-- ViaCep's record for 01001-000. -/
def pracaViaCep : Response :=
  { StatusCode := 200,
    Body := .ok (.value (.obj [("cep", .str "01001-000"), ("logradouro", .str "Praça da Sé"),
      ("complemento", .str "lado ímpar"), ("bairro", .str "Sé"), ("localidade", .str "São Paulo"),
      ("uf", .str "SP"), ("ibge", .str "3550308"), ("gia", .str "1004"), ("ddd", .str "11"),
      ("siafi", .str "7107")])) }

/-- Brasil Api's record for 01001000. -/
def pracaBrasilApi : Response :=
  { StatusCode := 200,
    Body := .ok (.value (.obj [("cep", .str "01001000"), ("state", .str "SP"),
      ("city", .str "São Paulo"), ("neighborhood", .str "Sé"), ("street", .str "Praça da Sé"),
      ("service", .str "open-cep")])) }

/-- Brasil Api's answer for a code it does not know. -/
def notFoundBrasilApi : Response :=
  { StatusCode := 404, Body := .ok (.value (.obj [("name", .str "CepPromiseError")])) }

/-- ViaCep's answer for a code it does not know: status 200 and the object with the
single member "erro": true. -/
def erroViaCep : Response :=
  { StatusCode := 200, Body := .ok (.value (.obj [("erro", .bool true)])) }

/-- The same object delivered with status 404. -/
def erro404ViaCep : Response :=
  { StatusCode := 404, Body := .ok (.value (.obj [("erro", .bool true)])) }

/-- Both providers know 01001000. -/
def bothKnow : Net := netOf "01001000" (.ok pracaViaCep) (.ok pracaBrasilApi)

/-- ViaCep knows 01001000, Brasil Api answers 404. -/
def onlyViaCep : Net := netOf "01001000" (.ok pracaViaCep) (.ok notFoundBrasilApi)

/-- ViaCep cannot be reached, Brasil Api answers 404. -/
def bothFail : Net :=
  netOf "00000000" (.error (.transport "connection refused")) (.ok notFoundBrasilApi)

/-- ViaCep answers with its "erro" object, Brasil Api answers 404. -/
def unknownCode : Net := netOf "99999999" (.ok erroViaCep) (.ok notFoundBrasilApi)

/-- ViaCep answers with a JSON object under status 404, Brasil Api answers 404. -/
def unknownCode404 : Net := netOf "99999999" (.ok erro404ViaCep) (.ok notFoundBrasilApi)

/-! ## Concrete requests used as examples -/

/-- ViaCep ready after 50ms, Brasil Api after 300ms, both with a record. -/
def viaCepFirst : Env :=
  { net := bothKnow,
    sched := { viaCepAt := some (50 * Millisecond), brasilApiAt := some (300 * Millisecond), pick := 0 } }

/-- Brasil Api fails after 50ms, ViaCep has its record ready after 300ms. -/
def failureFirst : Env :=
  { net := onlyViaCep,
    sched := { viaCepAt := some (300 * Millisecond), brasilApiAt := some (50 * Millisecond), pick := 0 } }

/-- ViaCep ready after 50ms with its record, Brasil Api fails after 300ms. -/
def failureLater : Env :=
  { net := onlyViaCep,
    sched := { viaCepAt := some (50 * Millisecond), brasilApiAt := some (300 * Millisecond), pick := 7 } }

/-- Both lookups fail, ViaCep after 50ms and Brasil Api after 70ms. -/
def bothFailEarly : Env :=
  { net := bothFail,
    sched := { viaCepAt := some (50 * Millisecond), brasilApiAt := some (70 * Millisecond), pick := 0 } }

/-- ViaCep never gets to send, Brasil Api is ready after 1200ms. -/
def tooLate : Env :=
  { net := bothKnow,
    sched := { viaCepAt := none, brasilApiAt := some (1200 * Millisecond), pick := 0 } }

/-- ViaCep answers an unknown code after 50ms, Brasil Api after 300ms. -/
def unknownFirst : Env :=
  { net := unknownCode,
    sched := { viaCepAt := some (50 * Millisecond), brasilApiAt := some (300 * Millisecond), pick := 0 } }

set_option maxRecDepth 20000

/-! ## The select -/

theorem earlier_le_left (t : Nat) (o : Option Nat) : earlier t o ≤ t := by
  cases o with
  | none => exact Nat.le_refl t
  | some u => exact Nat.min_le_left t u

theorem earlier_le_right (t u : Nat) : earlier t (some u) ≤ u := Nat.min_le_right t u

theorem earlier_cases (t : Nat) (o : Option Nat) : earlier t o = t ∨ o = some (earlier t o) := by
  cases o with
  | none => exact Or.inl rfl
  | some u =>
    rcases Nat.le_total t u with h | h
    · exact Or.inl (Nat.min_eq_left h)
    · exact Or.inr (congrArg some (Nat.min_eq_right h).symm)

/-- Some case is ready at the instant the select returns. -/
theorem Schedule.exists_ready (s : Schedule) : ∃ c, s.readyAt c = some s.selectAt := by
  rcases earlier_cases (earlier (Second * 1) s.viaCepAt) s.brasilApiAt with h | h
  · rcases earlier_cases (Second * 1) s.viaCepAt with h2 | h2
    · refine ⟨.timeAfter, ?_⟩
      show some (Second * 1) = some (earlier (earlier (Second * 1) s.viaCepAt) s.brasilApiAt)
      rw [h, h2]
    · refine ⟨.viaCep, ?_⟩
      show s.viaCepAt = some (earlier (earlier (Second * 1) s.viaCepAt) s.brasilApiAt)
      rw [h]
      exact h2
  · exact ⟨.brasilApi, h⟩

theorem Schedule.mem_ready (s : Schedule) (c : SelectCase) :
    c ∈ s.ready ↔ s.readyAt c = some s.selectAt := by
  unfold Schedule.ready
  rw [List.mem_filter]
  constructor
  · intro h; simpa using h.2
  · intro h
    refine ⟨?_, by simpa using h⟩
    cases c <;> simp

theorem Schedule.selected_mem (s : Schedule) : s.selected ∈ s.ready := by
  obtain ⟨c, hc⟩ := s.exists_ready
  have hne : s.ready ≠ [] := List.ne_nil_of_mem ((s.mem_ready c).mpr hc)
  have hpos : 0 < s.ready.length := List.length_pos.mpr hne
  have hlt : s.pick % s.ready.length < s.ready.length := Nat.mod_lt _ hpos
  unfold Schedule.selected
  rw [List.get?_eq_get hlt]
  exact List.get_mem _ _ _

/-- The case the select takes is ready at the instant the select returns. -/
theorem Schedule.readyAt_selected (s : Schedule) : s.readyAt s.selected = some s.selectAt :=
  (s.mem_ready _).mp s.selected_mem

/-- No case is ready before the select returns. -/
theorem Schedule.selectAt_le (s : Schedule) (c : SelectCase) (t : Nat)
    (h : s.readyAt c = some t) : s.selectAt ≤ t := by
  unfold Schedule.selectAt
  cases c with
  | viaCep =>
    have h1 : s.viaCepAt = some t := h
    calc earlier (earlier (Second * 1) s.viaCepAt) s.brasilApiAt
        ≤ earlier (Second * 1) s.viaCepAt := earlier_le_left _ _
      _ ≤ t := by rw [h1]; exact earlier_le_right _ _
  | brasilApi =>
    have h1 : s.brasilApiAt = some t := h
    rw [h1]; exact earlier_le_right _ _
  | timeAfter =>
    have h1 : some (Second * 1) = some t := h
    have h2 : Second * 1 = t := Option.some.inj h1
    calc earlier (earlier (Second * 1) s.viaCepAt) s.brasilApiAt
        ≤ earlier (Second * 1) s.viaCepAt := earlier_le_left _ _
      _ ≤ Second * 1 := earlier_le_left _ _
      _ = t := h2

/-- A case that is ready strictly before every other case is the one taken. -/
theorem Schedule.selected_of_first (s : Schedule) (c : SelectCase) (t : Nat)
    (h : s.readyAt c = some t)
    (hother : ∀ d u, d ≠ c → s.readyAt d = some u → t < u) : s.selected = c := by
  by_contra hne
  have h1 := hother s.selected s.selectAt hne s.readyAt_selected
  have h2 := s.selectAt_le c t h
  omega

/-- The select returns at the instant its case became ready. -/
theorem Schedule.selectAt_of_selected (s : Schedule) (c : SelectCase) (t : Nat)
    (hsel : s.selected = c) (h : s.readyAt c = some t) : s.selectAt = t := by
  have h1 := s.readyAt_selected
  rw [hsel, h] at h1
  exact (Option.some.inj h1).symm

theorem readyAt_timeAfter (s : Schedule) : s.readyAt .timeAfter = some Second := by
  show some (Second * 1) = some Second
  rw [Nat.mul_one]

/-! ## Formatting -/

theorem Sprintf_addressTemplate (a b c d e : String) :
    Sprintf addressTemplate [a, b, c, d, e] =
      "Logradouro: " ++ a ++ ", Bairro: " ++ b ++ ", Cidade: " ++ c ++ ", Estado: " ++ d ++
        ", CEP: " ++ e := by
  apply String.ext
  simp [Sprintf, addressTemplate, sprintfAux]

theorem Sprintf_viaCep (m : String) :
    Sprintf "Recebido de ViaCep: %s\n" [m] = "Recebido de ViaCep: " ++ m ++ "\n" := by
  apply String.ext
  simp [Sprintf, sprintfAux]

theorem Sprintf_brasilApi (m : String) :
    Sprintf "Recebido de Brasil Api: %s\n" [m] = "Recebido de Brasil Api: " ++ m ++ "\n" := by
  apply String.ext
  simp [Sprintf, sprintfAux]

theorem viaCep_response_ok (net : Net) (cep : String) (out : ViaCep)
    (h : SearchCepViaCep net cep = .ok out) :
    Sprintf "Recebido de ViaCep: %s\n" [viaCepMessage net cep] = viaCepLine out := by
  rw [Sprintf_viaCep]
  simp only [viaCepMessage, h, Sprintf_addressTemplate, viaCepLine]
  apply String.ext
  simp [List.append_assoc]

theorem brasilApi_response_ok (net : Net) (cep : String) (out : BrasilApi)
    (h : SearchCepBrasilApi net cep = .ok out) :
    Sprintf "Recebido de Brasil Api: %s\n" [brasilApiMessage net cep] = brasilApiLine out := by
  rw [Sprintf_brasilApi]
  simp only [brasilApiMessage, h, Sprintf_addressTemplate, brasilApiLine]
  apply String.ext
  simp [List.append_assoc]

theorem viaCep_response_error (net : Net) (cep : String) (e : Error)
    (h : SearchCepViaCep net cep = .error e) :
    Sprintf "Recebido de ViaCep: %s\n" [viaCepMessage net cep] =
      "Recebido de ViaCep: Erro ao buscar CEP pela ViaCep.\n" := by
  rw [Sprintf_viaCep]
  simp only [viaCepMessage, h]
  decide

theorem brasilApi_response_error (net : Net) (cep : String) (e : Error)
    (h : SearchCepBrasilApi net cep = .error e) :
    Sprintf "Recebido de Brasil Api: %s\n" [brasilApiMessage net cep] =
      "Recebido de Brasil Api: Erro ao buscar CEP pela Brasil Api\n" := by
  rw [Sprintf_brasilApi]
  simp only [brasilApiMessage, h]
  decide

/-- An address line of ViaCep is none of the three failure responses. -/
theorem viaCepLine_ne (v : ViaCep) :
    viaCepLine v ≠ "Timeout na busca de CEP" ∧
    viaCepLine v ≠ "Recebido de ViaCep: Erro ao buscar CEP pela ViaCep.\n" ∧
    viaCepLine v ≠ "Recebido de Brasil Api: Erro ao buscar CEP pela Brasil Api\n" := by
  refine ⟨?_, ?_, ?_⟩ <;>
  · intro h
    have h2 := congrArg String.data h
    simp [viaCepLine] at h2

/-- An address line of Brasil Api is none of the three failure responses. -/
theorem brasilApiLine_ne (b : BrasilApi) :
    brasilApiLine b ≠ "Timeout na busca de CEP" ∧
    brasilApiLine b ≠ "Recebido de ViaCep: Erro ao buscar CEP pela ViaCep.\n" ∧
    brasilApiLine b ≠ "Recebido de Brasil Api: Erro ao buscar CEP pela Brasil Api\n" := by
  refine ⟨?_, ?_, ?_⟩ <;>
  · intro h
    have h2 := congrArg String.data h
    simp [brasilApiLine] at h2

/-! ## The handler -/

/-- On a writer that accepts the body, the body is the string the select produced. -/
theorem body_eq_raceResponse (env : Env) (cep : String) (hcep : cep ≠ "") :
    (SearchCepHandler env (freshWriter false) cep).body = raceResponse env cep := by
  simp [SearchCepHandler, hcep, freshWriter, ResponseWriter.Write, ResponseWriter.WriteHeader,
    Run.body]

/-- Whatever the select produced, the status of a non-empty request is 200. -/
theorem statusCode_eq_ok (env : Env) (failing : Bool) (cep : String) (hcep : cep ≠ "") :
    (SearchCepHandler env (freshWriter failing) cep).statusCode = 200 := by
  cases failing <;>
    simp [SearchCepHandler, hcep, freshWriter, ResponseWriter.Write, ResponseWriter.WriteHeader,
      Run.statusCode, StatusOK]

theorem selectedAt_eq (env : Env) (w : ResponseWriter) (cep : String) (hcep : cep ≠ "") :
    (SearchCepHandler env w cep).selectedAt = some env.sched.selectAt := by
  simp [SearchCepHandler, hcep]

/-- When the lookup behind the case the select takes succeeded, the string the
select produces is that lookup's address line, and none of the failure responses. -/
theorem raceResponse_of_address (env : Env) (cep line : String)
    (h : addressResponse env.net cep env.sched.selected = some line) :
    raceResponse env cep = line ∧ line ≠ "Timeout na busca de CEP" ∧
      line ≠ "Recebido de ViaCep: Erro ao buscar CEP pela ViaCep.\n" ∧
      line ≠ "Recebido de Brasil Api: Erro ao buscar CEP pela Brasil Api\n" := by
  cases hsel : env.sched.selected with
  | viaCep =>
    rw [hsel] at h
    cases hres : SearchCepViaCep env.net cep with
    | error e => simp [addressResponse, hres] at h
    | ok out =>
      have hl : viaCepLine out = line := by simpa [addressResponse, hres] using h
      subst hl
      refine ⟨?_, viaCepLine_ne out⟩
      simp only [raceResponse, hsel]
      exact viaCep_response_ok env.net cep out hres
  | brasilApi =>
    rw [hsel] at h
    cases hres : SearchCepBrasilApi env.net cep with
    | error e => simp [addressResponse, hres] at h
    | ok out =>
      have hl : brasilApiLine out = line := by simpa [addressResponse, hres] using h
      subst hl
      refine ⟨?_, brasilApiLine_ne out⟩
      simp only [raceResponse, hsel]
      exact brasilApi_response_ok env.net cep out hres
  | timeAfter =>
    rw [hsel] at h
    simp [addressResponse] at h

/-! ## The claims -/

/-- C1 (counterexample): Brasil Api fails after 50ms while ViaCep has a record for
01001000 ready after 300ms, well before the deadline; the response is Brasil Api's
error message, not ViaCep's address. -/
theorem C1_counterexample :
    failureFirst.sched.viaCepAt = some (300 * Millisecond) ∧ 300 * Millisecond < Second ∧
    addressResponse failureFirst.net "01001000" .viaCep =
      some "Recebido de ViaCep: Logradouro: Praça da Sé, Bairro: Sé, Cidade: São Paulo, Estado: SP, CEP: 01001-000\n" ∧
    (SearchCepHandler failureFirst (freshWriter false) "01001000").body =
      "Recebido de Brasil Api: Erro ao buscar CEP pela Brasil Api\n" := by
  refine ⟨rfl, by decide, by decide, by decide⟩

/-- C1 (amended): for a non-empty code, when a provider delivers a success before
the 1-second deadline and no provider delivers a failure at or before that
instant, the response is the labelled address line of the provider the select
received from (a lookup that succeeded), it is neither the timeout message nor a
provider error message, and it is that provider's own line when no other message
is ready by then. -/
theorem C1_success_received (env : Env) (cep : String) (c : SelectCase) (t : Nat)
    (hcep : cep ≠ "")
    (hc : (addressResponse env.net cep c).isSome = true)
    (hat : env.sched.readyAt c = some t) (hlt : t < Second)
    (hnofail : ∀ d u, d ≠ c → d ≠ .timeAfter → env.sched.readyAt d = some u → u ≤ t →
      (addressResponse env.net cep d).isSome = true) :
    addressResponse env.net cep env.sched.selected =
      some (SearchCepHandler env (freshWriter false) cep).body ∧
    (SearchCepHandler env (freshWriter false) cep).body ≠ "Timeout na busca de CEP" ∧
    (SearchCepHandler env (freshWriter false) cep).body ≠
      "Recebido de ViaCep: Erro ao buscar CEP pela ViaCep.\n" ∧
    (SearchCepHandler env (freshWriter false) cep).body ≠
      "Recebido de Brasil Api: Erro ao buscar CEP pela Brasil Api\n" ∧
    ((∀ d u, d ≠ c → env.sched.readyAt d = some u → t < u) → env.sched.selected = c) := by
  have hs := env.sched.readyAt_selected
  have hle := env.sched.selectAt_le c t hat
  have hsome : (addressResponse env.net cep env.sched.selected).isSome = true := by
    by_cases hsc : env.sched.selected = c
    · rw [hsc]; exact hc
    · by_cases hst : env.sched.selected = .timeAfter
      · exfalso
        have h5 := env.sched.selectAt_of_selected .timeAfter Second hst (readyAt_timeAfter _)
        omega
      · exact hnofail env.sched.selected env.sched.selectAt hsc hst hs hle
  obtain ⟨line, hline⟩ := Option.isSome_iff_exists.mp hsome
  obtain ⟨h1, h2, h3, h4⟩ := raceResponse_of_address env cep line hline
  rw [body_eq_raceResponse env cep hcep, h1]
  exact ⟨hline, h2, h3, h4, fun h => env.sched.selected_of_first c t hat h⟩

/-- C1 (witness): ViaCep's record for 01001000 arrives after 50ms and Brasil Api's
after 300ms. -/
theorem C1_success_received_witness :
    addressResponse viaCepFirst.net "01001000" viaCepFirst.sched.selected =
      some (SearchCepHandler viaCepFirst (freshWriter false) "01001000").body ∧
    (SearchCepHandler viaCepFirst (freshWriter false) "01001000").body ≠
      "Timeout na busca de CEP" :=
  have h := C1_success_received viaCepFirst "01001000" .viaCep (50 * Millisecond)
    (by decide) (by decide) rfl (by decide)
    (fun d u hdc hdt _ _ => by
      cases d with
      | viaCep => exact absurd rfl hdc
      | brasilApi => decide
      | timeAfter => exact absurd rfl hdt)
  ⟨h.1, h.2.1⟩

/-- C2 (counterexample): ViaCep fails after 50ms and Brasil Api after 70ms, both
before the deadline; the response carries ViaCep's failure only, one entry and not
two. -/
theorem C2_counterexample :
    SearchCepViaCep bothFailEarly.net "00000000" = .error (.transport "connection refused") ∧
    SearchCepBrasilApi bothFailEarly.net "00000000" = .error (.message "CEP não encontrado.") ∧
    bothFailEarly.sched.viaCepAt = some (50 * Millisecond) ∧ 50 * Millisecond < Second ∧
    bothFailEarly.sched.brasilApiAt = some (70 * Millisecond) ∧ 70 * Millisecond < Second ∧
    (SearchCepHandler bothFailEarly (freshWriter false) "00000000").body =
      "Recebido de ViaCep: Erro ao buscar CEP pela ViaCep.\n" ∧
    reportedFailures (SearchCepHandler bothFailEarly (freshWriter false) "00000000").body = 1 := by
  refine ⟨rfl, rfl, rfl, by decide, rfl, by decide, by decide, by decide⟩

/-- C2 (amended): for a non-empty code for which both lookups return an error
strictly before the 1-second deadline, the response carries exactly one failure
message, that of the provider whose message the select received: the earlier
one, either one when both are ready at the same instant. -/
theorem C2_one_failure_reported (env : Env) (cep : String) (e1 e2 : Error) (tv tb : Nat)
    (hcep : cep ≠ "")
    (hv : SearchCepViaCep env.net cep = .error e1)
    (hb : SearchCepBrasilApi env.net cep = .error e2)
    (hvat : env.sched.viaCepAt = some tv) (hbat : env.sched.brasilApiAt = some tb)
    (hvlt : tv < Second) (hblt : tb < Second) :
    ((SearchCepHandler env (freshWriter false) cep).body =
        "Recebido de ViaCep: Erro ao buscar CEP pela ViaCep.\n" ∨
      (SearchCepHandler env (freshWriter false) cep).body =
        "Recebido de Brasil Api: Erro ao buscar CEP pela Brasil Api\n") ∧
    (tv < tb → (SearchCepHandler env (freshWriter false) cep).body =
        "Recebido de ViaCep: Erro ao buscar CEP pela ViaCep.\n") ∧
    (tb < tv → (SearchCepHandler env (freshWriter false) cep).body =
        "Recebido de Brasil Api: Erro ao buscar CEP pela Brasil Api\n") ∧
    reportedFailures (SearchCepHandler env (freshWriter false) cep).body = 1 := by
  have hlev := env.sched.selectAt_le .viaCep tv hvat
  have hleb := env.sched.selectAt_le .brasilApi tb hbat
  rw [body_eq_raceResponse env cep hcep]
  cases hsel : env.sched.selected with
  | viaCep =>
    have hat := env.sched.selectAt_of_selected .viaCep tv hsel hvat
    have hbody : raceResponse env cep = "Recebido de ViaCep: Erro ao buscar CEP pela ViaCep.\n" := by
      simp only [raceResponse, hsel]
      exact viaCep_response_error env.net cep e1 hv
    rw [hbody]
    exact ⟨Or.inl rfl, fun _ => rfl, fun h => by omega, by decide⟩
  | brasilApi =>
    have hat := env.sched.selectAt_of_selected .brasilApi tb hsel hbat
    have hbody : raceResponse env cep =
        "Recebido de Brasil Api: Erro ao buscar CEP pela Brasil Api\n" := by
      simp only [raceResponse, hsel]
      exact brasilApi_response_error env.net cep e2 hb
    rw [hbody]
    exact ⟨Or.inr rfl, fun h => by omega, fun _ => rfl, by decide⟩
  | timeAfter =>
    exfalso
    have hat := env.sched.selectAt_of_selected .timeAfter Second hsel (readyAt_timeAfter _)
    have hboth : tv < Second ∧ tb < Second := ⟨hvlt, hblt⟩
    omega

/-- C2 (witness): both lookups of 00000000 fail, after 50ms and 70ms. -/
theorem C2_one_failure_reported_witness :
    (SearchCepHandler bothFailEarly (freshWriter false) "00000000").body =
      "Recebido de ViaCep: Erro ao buscar CEP pela ViaCep.\n" :=
  (C2_one_failure_reported bothFailEarly "00000000" (.transport "connection refused")
    (.message "CEP não encontrado.") (50 * Millisecond) (70 * Millisecond)
    (by decide) rfl rfl rfl rfl (by decide) (by decide)).2.1 (by decide)

/-- C3 (counterexample): the race times out (ViaCep never answers, Brasil Api needs
1200ms) and the status is 200; a provider failure received first gives status 200
as well. -/
theorem C3_counterexample :
    (SearchCepHandler tooLate (freshWriter false) "01001000").body = "Timeout na busca de CEP" ∧
    (SearchCepHandler tooLate (freshWriter false) "01001000").statusCode = 200 ∧
    (SearchCepHandler failureFirst (freshWriter false) "01001000").body =
      "Recebido de Brasil Api: Erro ao buscar CEP pela Brasil Api\n" ∧
    (SearchCepHandler failureFirst (freshWriter false) "01001000").statusCode = 200 := by
  refine ⟨by decide, by decide, by decide, by decide⟩

/-- C3 (amended): for a non-empty code whose body is written without error, the
status is 200 whatever the outcome (address, provider failure or timeout); the
outcome shows only in the body, which is the string the select produced. -/
theorem C3_status_always_ok (env : Env) (cep : String) (hcep : cep ≠ "") :
    (SearchCepHandler env (freshWriter false) cep).statusCode = 200 ∧
    (SearchCepHandler env (freshWriter false) cep).body = raceResponse env cep ∧
    (env.sched.selected = .timeAfter →
      (SearchCepHandler env (freshWriter false) cep).body = "Timeout na busca de CEP") := by
  refine ⟨statusCode_eq_ok env false cep hcep, body_eq_raceResponse env cep hcep, ?_⟩
  intro hsel
  rw [body_eq_raceResponse env cep hcep]
  simp only [raceResponse, hsel]

/-- C3 (witness): the address of 01001000 is answered with status 200. -/
theorem C3_status_always_ok_witness :
    (SearchCepHandler viaCepFirst (freshWriter false) "01001000").statusCode = 200 :=
  (C3_status_always_ok viaCepFirst "01001000" (by decide)).1

/-- C4: for a non-empty code, when each provider's message gets ready only after the
1-second timer has fired (or never), the response body is exactly the timeout
message, whatever the lookups return, and the handler leaves the select at the
deadline. -/
theorem C4_timeout (env : Env) (cep : String) (hcep : cep ≠ "")
    (hv : ∀ t, env.sched.viaCepAt = some t → Second < t)
    (hb : ∀ t, env.sched.brasilApiAt = some t → Second < t) :
    (SearchCepHandler env (freshWriter false) cep).body = "Timeout na busca de CEP" ∧
    (SearchCepHandler env (freshWriter false) cep).selectedAt = some Second := by
  have hsel : env.sched.selected = .timeAfter := by
    apply env.sched.selected_of_first .timeAfter Second (readyAt_timeAfter _)
    intro d u hd hu
    cases d with
    | viaCep => exact hv u hu
    | brasilApi => exact hb u hu
    | timeAfter => exact absurd rfl hd
  have hat := env.sched.selectAt_of_selected .timeAfter Second hsel (readyAt_timeAfter _)
  rw [body_eq_raceResponse env cep hcep, selectedAt_eq env _ cep hcep, hat]
  refine ⟨?_, rfl⟩
  simp only [raceResponse, hsel]

/-- C4 (witness): ViaCep hangs and Brasil Api needs 1200ms. -/
theorem C4_timeout_witness :
    (SearchCepHandler tooLate (freshWriter false) "01001000").body = "Timeout na busca de CEP" ∧
    (SearchCepHandler tooLate (freshWriter false) "01001000").selectedAt = some Second :=
  C4_timeout tooLate "01001000" (by decide)
    (fun t h => by simp [tooLate] at h)
    (fun t h => by
      have h1 : some (1200 * Millisecond) = some t := h
      have h2 : 1200 * Millisecond = t := Option.some.inj h1
      have h3 : Second < 1200 * Millisecond := by decide
      omega)

/-- C5: an empty code is answered with status 400 and an empty body and starts no
lookup; every non-empty code starts both lookups. -/
theorem C5_empty_code (env : Env) (failing : Bool) (cep : String) :
    (cep = "" →
      (SearchCepHandler env (freshWriter failing) cep).statusCode = 400 ∧
      (SearchCepHandler env (freshWriter failing) cep).body = "" ∧
      (SearchCepHandler env (freshWriter failing) cep).lookups = []) ∧
    (cep ≠ "" →
      (SearchCepHandler env (freshWriter failing) cep).lookups =
        [Lookup.SearchCepBrasilApi, Lookup.SearchCepViaCep]) := by
  constructor
  · intro h
    subst h
    cases failing <;>
      simp [SearchCepHandler, freshWriter, ResponseWriter.WriteHeader, Run.statusCode, Run.body,
        StatusBadRequest]
  · intro h
    simp [SearchCepHandler, h]

/-- C5 (witness): the empty code and the code 01001000. -/
theorem C5_empty_code_witness :
    ((SearchCepHandler viaCepFirst (freshWriter false) "").statusCode = 400 ∧
      (SearchCepHandler viaCepFirst (freshWriter false) "").body = "" ∧
      (SearchCepHandler viaCepFirst (freshWriter false) "").lookups = []) ∧
    (SearchCepHandler viaCepFirst (freshWriter false) "01001000").lookups =
      [Lookup.SearchCepBrasilApi, Lookup.SearchCepViaCep] :=
  ⟨(C5_empty_code viaCepFirst false "").1 rfl,
    (C5_empty_code viaCepFirst false "01001000").2 (by decide)⟩

/-- C6 (counterexample): ViaCep's record for 01001000 is received; the body carries
the labels Logradouro, Bairro, Cidade, Estado and CEP, and the line with the labels
Street, Neighborhood, City, State and PostalCode occurs nowhere in it. -/
theorem C6_counterexample :
    viaCepFirst.sched.selected = .viaCep ∧
    (SearchCepHandler viaCepFirst (freshWriter false) "01001000").body =
      "Recebido de ViaCep: Logradouro: Praça da Sé, Bairro: Sé, Cidade: São Paulo, Estado: SP, CEP: 01001-000\n" ∧
    ¬ ((specAddressLine "Praça da Sé" "Sé" "São Paulo" "SP" "01001-000").data <:+:
      (SearchCepHandler viaCepFirst (freshWriter false) "01001000").body.data) := by
  refine ⟨by decide, by decide, by decide⟩

/-- C6 (amended): for a non-empty code, when the select receives a successful result,
the body is the provider label followed by
"Logradouro: s, Bairro: n, Cidade: c, Estado: e, CEP: p" and a newline, where
s, n, c, e, p are Logradouro, Bairro, Localidade, Uf, Cep for ViaCep (label
"Recebido de ViaCep: ") and Street, Neighborhood, City, State, Cep for Brasil Api
(label "Recebido de Brasil Api: "). -/
theorem C6_address_line (env : Env) (cep : String) (hcep : cep ≠ "") :
    (∀ out, env.sched.selected = .viaCep → SearchCepViaCep env.net cep = .ok out →
      (SearchCepHandler env (freshWriter false) cep).body =
        "Recebido de ViaCep: " ++ ("Logradouro: " ++ out.Logradouro ++ ", Bairro: " ++ out.Bairro ++
          ", Cidade: " ++ out.Localidade ++ ", Estado: " ++ out.Uf ++ ", CEP: " ++ out.Cep) ++ "\n") ∧
    (∀ out, env.sched.selected = .brasilApi → SearchCepBrasilApi env.net cep = .ok out →
      (SearchCepHandler env (freshWriter false) cep).body =
        "Recebido de Brasil Api: " ++ ("Logradouro: " ++ out.Street ++ ", Bairro: " ++
          out.Neighborhood ++ ", Cidade: " ++ out.City ++ ", Estado: " ++ out.State ++
          ", CEP: " ++ out.Cep) ++ "\n") := by
  rw [body_eq_raceResponse env cep hcep]
  constructor
  · intro out hsel hres
    simp only [raceResponse, hsel, Sprintf_viaCep, viaCepMessage, hres, Sprintf_addressTemplate]
  · intro out hsel hres
    simp only [raceResponse, hsel, Sprintf_brasilApi, brasilApiMessage, hres,
      Sprintf_addressTemplate]

/-- C6 (witness): ViaCep's record for 01001000, received after 50ms. -/
theorem C6_address_line_witness :
    (SearchCepHandler viaCepFirst (freshWriter false) "01001000").body =
      "Recebido de ViaCep: " ++ ("Logradouro: " ++ "Praça da Sé" ++ ", Bairro: " ++ "Sé" ++
        ", Cidade: " ++ "São Paulo" ++ ", Estado: " ++ "SP" ++ ", CEP: " ++ "01001-000") ++ "\n" :=
  (C6_address_line viaCepFirst "01001000" (by decide)).1
    { Cep := "01001-000", Logradouro := "Praça da Sé", Complemento := "lado ímpar", Bairro := "Sé",
      Localidade := "São Paulo", Uf := "SP", Ibge := "3550308", Gia := "1004", Ddd := "11",
      Siafi := "7107" }
    (by decide) rfl

/-- C7 (the code at the failing input): ViaCep's answer for an unknown code, the
object with the single member "erro": true, is decoded without error, with status
200 and with status 404 alike; SearchCepViaCep returns a record with every field
empty and the handler answers with an address line of empty fields. -/
theorem C7_viaCep_accepts_unknown_code :
    SearchCepViaCep unknownCode "99999999" = .ok {} ∧
    SearchCepViaCep unknownCode404 "99999999" = .ok {} ∧
    (SearchCepHandler unknownFirst (freshWriter false) "99999999").body =
      "Recebido de ViaCep: Logradouro: , Bairro: , Cidade: , Estado: , CEP: \n" := by
  refine ⟨rfl, rfl, by decide⟩

/-- C8: when the request to Brasil Api completes without transport error, a status of
404 or 400 gives the error "CEP não encontrado." whatever the body holds, and for
every other status the result is what reading and decoding the body gives. -/
theorem C8_brasilApi_not_found (net : Net) (cep : String) (resp : Response)
    (hreq : net.newRequest ("https://brasilapi.com.br/api/cep/v1/" ++ cep) = none)
    (hdo : net.doRequest ("https://brasilapi.com.br/api/cep/v1/" ++ cep) = .ok resp) :
    ((resp.StatusCode = 404 ∨ resp.StatusCode = 400) →
      SearchCepBrasilApi net cep = .error (.message "CEP não encontrado.")) ∧
    (¬ (resp.StatusCode = 404 ∨ resp.StatusCode = 400) →
      SearchCepBrasilApi net cep =
        match resp.Body with
        | .error err => .error err
        | .ok body => Unmarshal "BrasilApi" ({} : BrasilApi) setBrasilApi body) := by
  constructor
  · intro h
    simp only [SearchCepBrasilApi, hreq, hdo, StatusNotFound, StatusBadRequest]
    rw [if_pos h]
  · intro h
    simp only [SearchCepBrasilApi, hreq, hdo, StatusNotFound, StatusBadRequest]
    rw [if_neg h]
    cases resp.Body with
    | error err => rfl
    | ok body =>
      simp only
      cases Unmarshal "BrasilApi" ({} : BrasilApi) setBrasilApi body <;> rfl

/-- C8 (witness): Brasil Api answers 404 with a JSON object for 01001000. -/
theorem C8_brasilApi_not_found_witness :
    SearchCepBrasilApi onlyViaCep "01001000" = .error (.message "CEP não encontrado.") :=
  (C8_brasilApi_not_found onlyViaCep "01001000" notFoundBrasilApi rfl rfl).1 (Or.inl rfl)

/-- C9: for a non-empty code, when the two provider messages get ready at different
instants, both before the 1-second deadline, the response is the label of the
earlier provider followed by its message, and the handler leaves the select at the
instant of that first message. -/
theorem C9_first_received_wins (env : Env) (cep : String) (tv tb : Nat) (hcep : cep ≠ "")
    (hvat : env.sched.viaCepAt = some tv) (hbat : env.sched.brasilApiAt = some tb)
    (hvlt : tv < Second) (hblt : tb < Second) (hne : tv ≠ tb) :
    (tv < tb →
      (SearchCepHandler env (freshWriter false) cep).body =
        "Recebido de ViaCep: " ++ viaCepMessage env.net cep ++ "\n" ∧
      (SearchCepHandler env (freshWriter false) cep).selectedAt = some tv) ∧
    (tb < tv →
      (SearchCepHandler env (freshWriter false) cep).body =
        "Recebido de Brasil Api: " ++ brasilApiMessage env.net cep ++ "\n" ∧
      (SearchCepHandler env (freshWriter false) cep).selectedAt = some tb) ∧
    (tv < tb ∨ tb < tv) := by
  rw [body_eq_raceResponse env cep hcep, selectedAt_eq env _ cep hcep]
  refine ⟨?_, ?_, by omega⟩
  · intro hlt
    have hsel : env.sched.selected = .viaCep := by
      apply env.sched.selected_of_first .viaCep tv hvat
      intro d u hd hu
      cases d with
      | viaCep => exact absurd rfl hd
      | brasilApi =>
        have h1 : env.sched.brasilApiAt = some u := hu
        rw [hbat] at h1
        have h2 := Option.some.inj h1
        omega
      | timeAfter =>
        have h1 := readyAt_timeAfter env.sched
        rw [hu] at h1
        have h2 := Option.some.inj h1
        omega
    rw [env.sched.selectAt_of_selected .viaCep tv hsel hvat]
    refine ⟨?_, rfl⟩
    simp only [raceResponse, hsel, Sprintf_viaCep]
  · intro hlt
    have hsel : env.sched.selected = .brasilApi := by
      apply env.sched.selected_of_first .brasilApi tb hbat
      intro d u hd hu
      cases d with
      | viaCep =>
        have h1 : env.sched.viaCepAt = some u := hu
        rw [hvat] at h1
        have h2 := Option.some.inj h1
        omega
      | brasilApi => exact absurd rfl hd
      | timeAfter =>
        have h1 := readyAt_timeAfter env.sched
        rw [hu] at h1
        have h2 := Option.some.inj h1
        omega
    rw [env.sched.selectAt_of_selected .brasilApi tb hsel hbat]
    refine ⟨?_, rfl⟩
    simp only [raceResponse, hsel, Sprintf_brasilApi]

/-- C9 (witness): results at 50ms (ViaCep) and 300ms (Brasil Api) for 01001000: the
response is ViaCep's and the handler leaves the select after 50ms. -/
theorem C9_first_received_wins_witness :
    (SearchCepHandler viaCepFirst (freshWriter false) "01001000").body =
      "Recebido de ViaCep: " ++ viaCepMessage viaCepFirst.net "01001000" ++ "\n" ∧
    (SearchCepHandler viaCepFirst (freshWriter false) "01001000").selectedAt =
      some (50 * Millisecond) :=
  (C9_first_received_wins viaCepFirst "01001000" (50 * Millisecond) (300 * Millisecond)
    (by decide) rfl rfl (by decide) (by decide) (by decide)).1 (by decide)

/-- C10: two runs for the same non-empty code in which the select receives from the
same channel and that provider's lookup returned the same result leave the same
response (status and body), whatever the other provider returned and whenever. -/
theorem C10_no_merge (e1 e2 : Env) (cep : String) (failing : Bool) (hcep : cep ≠ "")
    (hsel : e1.sched.selected = e2.sched.selected)
    (hvia : e1.sched.selected = .viaCep →
      SearchCepViaCep e1.net cep = SearchCepViaCep e2.net cep)
    (hbr : e1.sched.selected = .brasilApi →
      SearchCepBrasilApi e1.net cep = SearchCepBrasilApi e2.net cep) :
    (SearchCepHandler e1 (freshWriter failing) cep).w =
      (SearchCepHandler e2 (freshWriter failing) cep).w := by
  have hresp : raceResponse e1 cep = raceResponse e2 cep := by
    cases h : e1.sched.selected with
    | viaCep =>
      have h2 : e2.sched.selected = .viaCep := by rw [← hsel]; exact h
      simp only [raceResponse, h, h2, viaCepMessage, hvia h]
    | brasilApi =>
      have h2 : e2.sched.selected = .brasilApi := by rw [← hsel]; exact h
      simp only [raceResponse, h, h2, brasilApiMessage, hbr h]
    | timeAfter =>
      have h2 : e2.sched.selected = .timeAfter := by rw [← hsel]; exact h
      simp only [raceResponse, h, h2]
  simp only [SearchCepHandler, if_neg hcep, hresp]

/-- C10 (witness): ViaCep's record for 01001000 is received in both runs; Brasil Api
has a record in one and answers 404 in the other. -/
theorem C10_no_merge_witness :
    SearchCepBrasilApi viaCepFirst.net "01001000" ≠ SearchCepBrasilApi failureLater.net "01001000" ∧
    (SearchCepHandler viaCepFirst (freshWriter false) "01001000").w =
      (SearchCepHandler failureLater (freshWriter false) "01001000").w :=
  have hne : SearchCepBrasilApi viaCepFirst.net "01001000" ≠
      SearchCepBrasilApi failureLater.net "01001000" := by
    intro h
    have h1 : SearchCepBrasilApi failureLater.net "01001000" =
        .error (.message "CEP não encontrado.") := rfl
    have h2 : SearchCepBrasilApi viaCepFirst.net "01001000" =
        .ok { Cep := "01001000", State := "SP", City := "São Paulo", Neighborhood := "Sé",
              Street := "Praça da Sé", Service := "open-cep" } := rfl
    rw [h1, h2] at h
    cases h
  ⟨hne, C10_no_merge viaCepFirst failureLater "01001000" false (by decide) (by decide)
    (fun _ => rfl) (fun h => absurd h (by decide))⟩

end Cep
